import Mathlib

/-!
Shallow embedding of the XAJ (Xinanjiang) rainfall-runoff model
(`src/xaj/xaj.py`) over exact real arithmetic, together with proofs of the
specification's testable properties.

Modelling conventions:
* one basin, scalar state (the batch dimension is embarrassingly parallel);
* Python floats become `ℝ`; `x ** y` with a real exponent becomes `Real.rpow`;
* `np.where(c, a, b)` on scalars becomes `if c then a else b`;
* `np.clip`/`np.maximum` become `min`/`max`;
* optional arguments defaulting on `None` become `Option ℝ` with `Option.getD`;
* raised exceptions (`NotImplementedError`, `KeyError`, `np.stack` on an
  empty list) become `Except String`;
* where a claim is about a division that Python cannot perform, the affected
  formulas are additionally instrumented with a checked division
  (`checkedDiv`, returning `none` on a zero divisor); the main definitions
  use total field division, faithful whenever no division by zero occurs.
-/

/-- Three-layer evaporation model (`calculate_evap`, xaj.py lines 11-33). -/
noncomputable def calculate_evap (lm c wu0 wl0 prcp pet : ℝ) : ℝ × ℝ × ℝ :=
  let eu := if wu0 + prcp ≥ pet then pet else wu0 + prcp
  let ed := if wl0 < c * lm ∧ wl0 < c * (pet - eu) then c * (pet - eu) - wl0 else 0
  let el := if wu0 + prcp ≥ pet then 0
            else if wl0 ≥ c * lm then (pet - eu) * wl0 / lm
            else if wl0 ≥ c * (pet - eu) then c * (pet - eu) else wl0
  (eu, el, ed)

/-- Storage-capacity-curve runoff generation (`calculate_prcp_runoff`,
xaj.py lines 36-63). Returns `(r, r_im)`. -/
noncomputable def calculate_prcp_runoff (b im wm w0 pe : ℝ) : ℝ × ℝ :=
  let wmm := wm * (1 + b) / (1 - im)
  let a := wmm * (1 - (1 - w0 / wm) ^ ((1 : ℝ) / (1 + b)))
  let r_cal := if pe + a < wmm
               then pe - (wm - w0) + wm * (1 - (a + pe) / wmm) ^ ((1 : ℝ) + b)
               else pe - (wm - w0)
  (max r_cal 0, max (pe * im) 0)

/-- Update of the three soil-moisture layers (`calculate_w_storage`,
xaj.py lines 66-98). Note that the function recomputes a net rainfall
`max (p - e) 0` from its `p` argument, and clips each layer to
`[0, capacity]` at the end. -/
noncomputable def calculate_w_storage (um lm dm wu0 wl0 wd0 eu el ed p r : ℝ) :
    ℝ × ℝ × ℝ :=
  let e := eu + el + ed
  let pe := max (p - e) 0
  let wu := if pe > 0 then (if wu0 + pe - r < um then wu0 + pe - r else um)
            else wu0 - eu
  let wd := if pe > 0 then
              (if wu0 + wl0 + pe - r > um + lm
               then wu0 + wl0 + wd0 + pe - r - um - lm else wd0)
            else wd0 - ed
  let wl := if pe > 0 then wu0 + wl0 + wd0 + pe - r - wu - wd else wl0 - el
  (min (max wu 0) um, min (max wl 0) lm, min (max wd 0) dm)

/-- Evapotranspiration-and-generation step (`generation`, xaj.py lines
101-155). Forcing is clamped to be non-negative; `None` initial states get
the empirical defaults `0.6 * capacity`. Returns `((r, rim, e, pe), (wu, wl, wd))`.
The `p` argument handed to `calculate_w_storage` is the net rainfall `pe`,
exactly as in the source. -/
noncomputable def generation (prcp_raw pet_raw um lm dm c b im : ℝ)
    (wu0o wl0o wd0o : Option ℝ) : (ℝ × ℝ × ℝ × ℝ) × (ℝ × ℝ × ℝ) :=
  let prcp := max prcp_raw 0
  let pet := max pet_raw 0
  let wm := um + lm + dm
  let wu0 := wu0o.getD (0.6 * um)
  let wl0 := wl0o.getD (0.6 * lm)
  let wd0 := wd0o.getD (0.6 * dm)
  let w0_ := wu0 + wl0 + wd0
  let w0 := if w0_ > wm then wm else w0_
  let ev := calculate_evap lm c wu0 wl0 prcp pet
  let e := ev.1 + ev.2.1 + ev.2.2
  let pe := max (prcp - e) 0
  let rr := calculate_prcp_runoff b im wm w0 pe
  let w := calculate_w_storage um lm dm wu0 wl0 wd0 ev.1 ev.2.1 ev.2.2 pe rr.1
  ((rr.1, rr.2, e, pe), w)

/-- Standard source partitioner (`sources`, xaj.py lines 158-206).
Returns `((rs, ri, rg), (fr, s1))`. Total field division is used where the
source divides (`/fr` yields junk rather than an error when `fr = 0`;
see `sources_checked` for the instrumented version). -/
noncomputable def sources (pe r sm ex ki kg : ℝ) (s0o fr0o : Option ℝ) :
    (ℝ × ℝ × ℝ) × (ℝ × ℝ) :=
  let ms := sm * (1 + ex)
  let s0 := s0o.getD (0.60 * sm)
  let fr0 := fr0o.getD 0.02
  let fr := if pe < 1e-5 then fr0 else r / pe
  let au := ms * (1 - (1 - (fr0 * s0 / fr) / sm) ^ ((1 : ℝ) / (1 + ex)))
  let rs := if pe + au < ms
            then fr * (pe + (fr0 * s0 / fr) - sm + sm * (1 - (pe + au) / ms) ^ (ex + 1))
            else fr * (pe + (fr0 * s0 / fr) - sm)
  let s := (fr0 * s0 / fr) + (r - rs) / fr
  let ri := ki * s * fr
  let rg := kg * s * fr
  let s1 := s * (1 - ki - kg)
  ((max rs 0, max ri 0, max rg 0), (fr, s1))

/-- Division that records a zero divisor instead of defaulting to `0`. -/
noncomputable def checkedDiv (a b : ℝ) : Option ℝ :=
  if b = 0 then none else some (a / b)

/-- The divisions of `sources` (xaj.py lines 184-196) instrumented with
`checkedDiv`: the area fraction `fr = r / pe` is the divisor of both the
`fr0 * s0 / fr` term inside `au` and of the storage recovery
`s = fr0 * s0 / fr + (r - rs) / fr`. -/
noncomputable def sources_checked (pe r sm ex ki kg : ℝ) (s0o fr0o : Option ℝ) :
    Option ((ℝ × ℝ × ℝ) × (ℝ × ℝ)) :=
  let ms := sm * (1 + ex)
  let s0 := s0o.getD (0.60 * sm)
  let fr0 := fr0o.getD 0.02
  let fr := if pe < 1e-5 then fr0 else r / pe
  match checkedDiv (fr0 * s0) fr with
  | none => none
  | some c0 =>
    let au := ms * (1 - (1 - c0 / sm) ^ ((1 : ℝ) / (1 + ex)))
    let rs := if pe + au < ms
              then fr * (pe + c0 - sm + sm * (1 - (pe + au) / ms) ^ (ex + 1))
              else fr * (pe + c0 - sm)
    match checkedDiv (r - rs) fr with
    | none => none
    | some t =>
      let s := c0 + t
      some ((max rs 0, max (ki * s * fr) 0, max (kg * s * fr) 0), (fr, s * (1 - ki - kg)))

/-- Number of sub-daily periods per day (`period_num_1d`, xaj.py lines
234-239): integer division of 24 by the interval length, plus one when it
does not divide evenly. -/
def period_num_1d (time_interval_hours : ℕ) : ℕ :=
  24 / time_interval_hours + (if 24 % time_interval_hours = 0 then 0 else 1)

/-- Number of (at most 5 mm) runoff slices (`n`, xaj.py lines 255-261):
`1` when the runoff is below 5 mm, otherwise `⌈runoff / 5⌉` computed with
truncating division plus a remainder test, as in the source. -/
noncomputable def sources5mm_n (runoff : ℝ) : ℕ :=
  if runoff < 5 then 1
  else (⌊runoff / 5⌋).toNat + (if runoff = 5 * (⌊runoff / 5⌋ : ℝ) then 0 else 1)

/-- One slice of the sub-stepped source partitioner (the body of the loop in
`sources5mm`, xaj.py lines 275-319), for either book formulation. Arguments
`fr0_d, s0_d` are the previous slice's area fraction and storage; the result
is `((rs_j, rss_j, rg_j), s_d)` with `s_d` the updated storage. -/
noncomputable def xaj_5mm_slice (book : String) (sm ex smm pen rn kss_d kg_d fr_d fr0_d s0_d : ℝ) :
    (ℝ × ℝ × ℝ) × ℝ :=
  let s_d := fr0_d * s0_d / fr_d
  if book = "ShuiWenYuBao" then
    let ms := smm
    let s_d := if s_d > sm then sm else s_d
    let au := ms * (1 - (1 - s_d / sm) ^ ((1 : ℝ) / (1 + ex)))
    let rs_j := if pen + au ≥ ms
                then (pen + s_d - sm) * fr_d
                else (pen - sm + s_d + sm * (1 - (pen + au) / ms) ^ (ex + 1)) * fr_d
    let s_d := s_d + (rn - rs_j) / fr_d
    let rss_j := s_d * kss_d * fr_d
    let rg_j := s_d * kg_d * fr_d
    ((rs_j, rss_j, rg_j), s_d * (1 - rss_j + rg_j))
  else
    let smmf := smm * (1 - (1 - fr_d) ^ ((1 : ℝ) / ex))
    let smf := smmf / (1 + ex)
    let s_d := if s_d > smf then smf else s_d
    let au := smmf * (1 - (1 - s_d / smf) ^ ((1 : ℝ) / (1 + ex)))
    if pen + au ≥ smmf then
      let rs_j := (pen + s_d - smf) * fr_d
      let rss_j := smf * kss_d * fr_d
      let rg_j := smf * kg_d * fr_d
      ((rs_j, rss_j, rg_j), smf - (rss_j + rg_j) / fr_d)
    else
      let rs_j := (pen - smf + s_d + smf * (1 - (pen + au) / smmf) ^ (ex + 1)) * fr_d
      let rss_j := (pen - rs_j / fr_d + s_d) * kss_d * fr_d
      let rg_j := (pen - rs_j / fr_d + s_d) * kg_d * fr_d
      ((rs_j, rss_j, rg_j), s_d + pen - (rs_j + rss_j + rg_j) / fr_d)

/-- The slice loop of `sources5mm`: iterates `xaj_5mm_slice`, feeding each
slice's `(fr_d, s_d)` to the next (the source keeps the whole history in
`fr_ds`/`s_ds` but only ever reads the previous entry) and accumulating the
running totals of `rs, rss, rg`. Returns `(totals, fr_prev, s_prev)`. -/
noncomputable def sources5mm_go (book : String) (sm ex smm pen rn kss_d kg_d fr_d : ℝ) :
    ℕ → ℝ → ℝ → ℝ × ℝ × ℝ → (ℝ × ℝ × ℝ) × ℝ × ℝ
  | 0, fr_prev, s_prev, acc => (acc, fr_prev, s_prev)
  | j + 1, fr_prev, s_prev, acc =>
    let res := xaj_5mm_slice book sm ex smm pen rn kss_d kg_d fr_d fr_prev s_prev
    sources5mm_go book sm ex smm pen rn kss_d kg_d fr_d j fr_d res.2
      (acc.1 + res.1.1, acc.2.1 + res.1.2.1, acc.2.2 + res.1.2.2)

/-- Sub-stepped source partitioner (`sources5mm`, xaj.py lines 209-321).
Daily coefficients are converted to per-period and then per-slice values,
the area fraction is clipped to `[0.001, 1]`, and the slice update runs
`n` times. Returns `((rs, rss, rg), (fr_d, s_d))` of the last slice. -/
noncomputable def sources5mm (pe runoff sm ex ki kg : ℝ) (s0o fr0o : Option ℝ)
    (time_interval_hours : ℕ) (book : String) : (ℝ × ℝ × ℝ) × ℝ × ℝ :=
  let pnum := period_num_1d time_interval_hours
  let kss_period := (1 - (1 - (ki + kg)) ^ ((1 : ℝ) / (pnum : ℝ))) / (1 + kg / ki)
  let kg_period := kss_period * kg / ki
  let smm := sm * (1 + ex)
  let s0 := s0o.getD (0.60 * sm)
  let fr0 := fr0o.getD 0.02
  let fr := if pe > 1e-5 then runoff / pe else fr0
  let fr := min (max fr 0.001) 1
  let n := sources5mm_n runoff
  let rn := runoff / (n : ℝ)
  let pen := pe / (n : ℝ)
  let kss_d := (1 - (1 - (kss_period + kg_period)) ^ ((1 : ℝ) / (n : ℝ))) / (1 + kg_period / kss_period)
  let kg_d := kss_d * kg_period / kss_period
  let fr_d := 1 - (1 - fr) ^ ((1 : ℝ) / (n : ℝ))
  sources5mm_go book sm ex smm pen rn kss_d kg_d fr_d n fr0 s0 (0, 0, 0)

/-- The daily-to-period and period-to-slice coefficient conversions of
`sources5mm` (xaj.py lines 233-243 and 265-266) instrumented with
`checkedDiv` at each division the source performs (`kg / ki`,
`/(1 + kg / ki)`, `kss_period * kg / ki`, `kg_period / kss_period`,
`/(1 + kg_period / kss_period)`, `kss_d * kg_period / kss_period`).
Returns `(kss_period, kg_period, kss_d, kg_d)` when every division is
defined. -/
noncomputable def sources5mm_kcoeffs_checked (ki kg : ℝ) (time_interval_hours n : ℕ) :
    Option (ℝ × ℝ × ℝ × ℝ) :=
  let pnum := period_num_1d time_interval_hours
  match checkedDiv kg ki with
  | none => none
  | some q1 =>
    match checkedDiv (1 - (1 - (ki + kg)) ^ ((1 : ℝ) / (pnum : ℝ))) (1 + q1) with
    | none => none
    | some kss_period =>
      match checkedDiv (kss_period * kg) ki with
      | none => none
      | some kg_period =>
        match checkedDiv kg_period kss_period with
        | none => none
        | some q2 =>
          match checkedDiv (1 - (1 - (kss_period + kg_period)) ^ ((1 : ℝ) / (n : ℝ))) (1 + q2) with
          | none => none
          | some kss_d =>
            match checkedDiv (kss_d * kg_period) kss_period with
            | none => none
            | some kg_d => some (kss_period, kg_period, kss_d, kg_d)

/-- Modelled from the spec (section 4.3 / testable property "in the limit of
`n = 1` the sub-stepped partitioner must reduce to a single application of
its closed-form step"): the same contract as `sources5mm` but applying the
selected book formulation's closed-form slice update exactly once, with the
full net rainfall and runoff and with the per-period coefficients — no
sub-slicing and no second coefficient conversion. -/
noncomputable def sources5mm_single (pe runoff sm ex ki kg : ℝ) (s0o fr0o : Option ℝ)
    (time_interval_hours : ℕ) (book : String) : (ℝ × ℝ × ℝ) × ℝ × ℝ :=
  let pnum := period_num_1d time_interval_hours
  let kss_period := (1 - (1 - (ki + kg)) ^ ((1 : ℝ) / (pnum : ℝ))) / (1 + kg / ki)
  let kg_period := kss_period * kg / ki
  let smm := sm * (1 + ex)
  let s0 := s0o.getD (0.60 * sm)
  let fr0 := fr0o.getD 0.02
  let fr := if pe > 1e-5 then runoff / pe else fr0
  let fr := min (max fr 0.001) 1
  let res := xaj_5mm_slice book sm ex smm pe runoff kss_period kg_period fr fr0 s0
  (res.1, fr, res.2)

/-- Reading one key of the initial-state mapping (`states["WU0"]` and
friends, xaj.py lines 382-389): a missing key is a `KeyError`. -/
noncomputable def requireKey (m : List (String × ℝ)) (k : String) : Except String ℝ :=
  match m.lookup k with
  | some v => Except.ok v
  | none => Except.error ("KeyError: " ++ k)

/-- Resolution of the optional initial-state mapping by the driver
(xaj.py lines 371-389): `None` leaves every state `None` (each component
then applies its own default), while a supplied mapping must contain all
eight keys, in the order the source reads them. Returns
`(wu0, wl0, wd0, s0, fr0, qs0, qi0, qg0)`. -/
noncomputable def xaj_read_states (states : Option (List (String × ℝ))) :
    Except String (Option ℝ × Option ℝ × Option ℝ × Option ℝ ×
                   Option ℝ × Option ℝ × Option ℝ × Option ℝ) :=
  match states with
  | none => Except.ok (none, none, none, none, none, none, none, none)
  | some m =>
    match requireKey m "WU0" with
    | Except.error e => Except.error e
    | Except.ok wu0 =>
      match requireKey m "WL0" with
      | Except.error e => Except.error e
      | Except.ok wl0 =>
        match requireKey m "WD0" with
        | Except.error e => Except.error e
        | Except.ok wd0 =>
          match requireKey m "S0" with
          | Except.error e => Except.error e
          | Except.ok s0 =>
            match requireKey m "FR0" with
            | Except.error e => Except.error e
            | Except.ok fr0 =>
              match requireKey m "QS0" with
              | Except.error e => Except.error e
              | Except.ok qs0 =>
                match requireKey m "QI0" with
                | Except.error e => Except.error e
                | Except.ok qi0 =>
                  match requireKey m "QG0" with
                  | Except.error e => Except.error e
                  | Except.ok qg0 =>
                    Except.ok (some wu0, some wl0, some wd0, some s0,
                               some fr0, some qs0, some qi0, some qg0)

/-- One iteration of the driver's time loop (xaj.py lines 395-429):
generation, then dispatch on `source_type` ("sources" / "sources5mm" /
fatal `NotImplementedError`). Returns `((rim, rs, ri, rg), w, S)` where `w`
is the updated soil state and `S` the updated `(fr, s)` pair as returned by
the partitioner. -/
noncomputable def xaj_step (um lm dm c b im sm ex ki kg : ℝ)
    (source_type source_book : String)
    (w : Option ℝ × Option ℝ × Option ℝ) (S : Option ℝ × Option ℝ)
    (pq : ℝ × ℝ) : Except String ((ℝ × ℝ × ℝ × ℝ) × (ℝ × ℝ × ℝ) × (ℝ × ℝ)) :=
  let g := generation pq.1 pq.2 um lm dm c b im w.1 w.2.1 w.2.2
  if source_type = "sources" then
    let src := sources g.1.2.2.2 g.1.1 sm ex ki kg S.1 S.2
    Except.ok ((g.1.2.1, src.1.1, src.1.2.1, src.1.2.2), g.2, src.2)
  else if source_type = "sources5mm" then
    let src := sources5mm g.1.2.2.2 g.1.1 sm ex ki kg S.1 S.2 24 source_book
    Except.ok ((g.1.2.1, src.1.1, src.1.2.1, src.1.2.2), g.2, src.2)
  else Except.error "No such divide-sources method"

/-- The driver's time loop (xaj.py lines 391-429). As in the source, the
updated pair returned by the partitioner is passed positionally (`*S`) into
the next call's `(s0, fr0)` slots, and the updated soil triple into
`(wu0, wl0, wd0)`. Returns the per-step `((rim, rs, ri, rg), w, S)` records. -/
noncomputable def xaj_loop (um lm dm c b im sm ex ki kg : ℝ)
    (source_type source_book : String) :
    Option ℝ × Option ℝ × Option ℝ → Option ℝ × Option ℝ → List (ℝ × ℝ) →
    Except String (List ((ℝ × ℝ × ℝ × ℝ) × (ℝ × ℝ × ℝ) × (ℝ × ℝ)))
  | _, _, [] => Except.ok []
  | w, S, pq :: rest =>
    match xaj_step um lm dm c b im sm ex ki kg source_type source_book w S pq with
    | Except.error e => Except.error e
    | Except.ok r =>
      match xaj_loop um lm dm c b im sm ex ki kg source_type source_book
          (some r.2.1.1, some r.2.1.2.1, some r.2.1.2.2)
          (some r.2.2.1, some r.2.2.2) rest with
      | Except.error e => Except.error e
      | Except.ok rs => Except.ok (r :: rs)

/-- Single-pole linear reservoir `q[t] = inflow[t] * (1 - k) + q[t-1] * k`
(xaj.py lines 443-461). -/
noncomputable def linres (k : ℝ) : ℝ → List ℝ → List ℝ
  | _, [] => []
  | qprev, x :: xs => (x * (1 - k) + qprev * k) :: linres k (x * (1 - k) + qprev * k) xs

/-- Linear-reservoir routing of the three runoff components and summation
into total discharge (xaj.py lines 434-465, `uh = None` path): the surface
reservoir routes `rim + rs`, and absent initial outflows default to `0.01`. -/
noncomputable def xaj_route (cs ci cg : ℝ) (qs0 qi0 qg0 : Option ℝ)
    (outs : List (ℝ × ℝ × ℝ × ℝ)) : List ℝ :=
  let qs := linres cs (qs0.getD 0.01) (outs.map (fun o => o.1 + o.2.1))
  let qi := linres ci (qi0.getD 0.01) (outs.map (fun o => o.2.2.1))
  let qg := linres cg (qg0.getD 0.01) (outs.map (fun o => o.2.2.2))
  (qs.zip (qi.zip qg)).map (fun t => t.1 + t.2.1 + t.2.2)

/-- The simulation driver (`xaj`, xaj.py lines 324-466) on the
linear-reservoir routing path (`uh = None`): resolve the initial-state
mapping, run the time loop, fail like `np.stack` on an empty record list,
and route the generated runoff into the discharge series. -/
noncomputable def xaj (b im um lm dm c sm ex ki kg ci cg cs : ℝ)
    (source_type source_book : String) (states : Option (List (String × ℝ)))
    (p_and_e : List (ℝ × ℝ)) : Except String (List ℝ) :=
  match xaj_read_states states with
  | Except.error e => Except.error e
  | Except.ok (wu0, wl0, wd0, s0, fr0, qs0, qi0, qg0) =>
    match xaj_loop um lm dm c b im sm ex ki kg source_type source_book
        (wu0, wl0, wd0) (s0, fr0) p_and_e with
    | Except.error e => Except.error e
    | Except.ok [] => Except.error "need at least one array to stack"
    | Except.ok steps => Except.ok (xaj_route cs ci cg qs0 qi0 qg0 (steps.map (fun t => t.1)))

/-! ### Helper lemmas -/

/-- Evaluation helper: a real power with exponent `2` is a square. -/
theorem rpow_two_eval (x : ℝ) : x ^ ((2 : ℝ)) = x * x := by
  rw [show ((2 : ℝ)) = ((2 : ℕ) : ℝ) by norm_num, Real.rpow_natCast]
  ring

/-- All three evaporation components are non-negative for admissible inputs. -/
theorem calculate_evap_nonneg (lm c wu0 wl0 prcp pet : ℝ)
    (hlm : 0 < lm) (hc : 0 ≤ c) (hwu : 0 ≤ wu0) (hwl : 0 ≤ wl0)
    (hprcp : 0 ≤ prcp) (hpet : 0 ≤ pet) :
    0 ≤ (calculate_evap lm c wu0 wl0 prcp pet).1 ∧
    0 ≤ (calculate_evap lm c wu0 wl0 prcp pet).2.1 ∧
    0 ≤ (calculate_evap lm c wu0 wl0 prcp pet).2.2 := by
  simp only [calculate_evap]
  by_cases h1 : wu0 + prcp ≥ pet
  · simp only [if_pos h1]
    refine ⟨hpet, le_refl 0, ?_⟩
    by_cases h2 : wl0 < c * lm ∧ wl0 < c * (pet - pet)
    · rw [if_pos h2]; linarith [h2.2]
    · rw [if_neg h2]
  · simp only [if_neg h1]
    push_neg at h1
    refine ⟨by linarith, ?_, ?_⟩
    · by_cases h3 : wl0 ≥ c * lm
      · rw [if_pos h3]
        exact div_nonneg (mul_nonneg (by linarith) hwl) hlm.le
      · rw [if_neg h3]
        by_cases h4 : wl0 ≥ c * (pet - (wu0 + prcp))
        · rw [if_pos h4]
          exact mul_nonneg hc (by linarith)
        · rw [if_neg h4]; exact hwl
    · by_cases h2 : wl0 < c * lm ∧ wl0 < c * (pet - (wu0 + prcp))
      · rw [if_pos h2]; linarith [h2.2]
      · rw [if_neg h2]

/-- With zero forcing every evaporation component vanishes. -/
theorem calculate_evap_zero (lm c wu0 wl0 : ℝ) (hwu : 0 ≤ wu0) (hwl : 0 ≤ wl0) :
    calculate_evap lm c wu0 wl0 0 0 = (0, 0, 0) := by
  simp only [calculate_evap]
  have h1 : wu0 + 0 ≥ (0 : ℝ) := by linarith
  simp only [if_pos h1]
  have h2 : ¬ (wl0 < c * lm ∧ wl0 < c * ((0 : ℝ) - 0)) := by
    rintro ⟨-, hb⟩; nlinarith
  rw [if_neg h2]

/-- Bounds on the generated runoff: it is non-negative, never exceeds the
net rainfall, and never falls below `pe - (wm - w0)`; the impervious-area
runoff is also squeezed into `[0, pe]`. -/
theorem calculate_prcp_runoff_bounds (b im wm w0 pe : ℝ)
    (hb : 0 < b) (him0 : 0 ≤ im) (him1 : im < 1) (hwm : 0 < wm)
    (hw00 : 0 ≤ w0) (hw0m : w0 ≤ wm) (hpe : 0 ≤ pe) :
    0 ≤ (calculate_prcp_runoff b im wm w0 pe).1 ∧
    (calculate_prcp_runoff b im wm w0 pe).1 ≤ pe ∧
    pe - (wm - w0) ≤ (calculate_prcp_runoff b im wm w0 pe).1 ∧
    0 ≤ (calculate_prcp_runoff b im wm w0 pe).2 ∧
    (calculate_prcp_runoff b im wm w0 pe).2 ≤ pe := by
  have h1b : (0 : ℝ) < 1 + b := by linarith
  have him : (0 : ℝ) < 1 - im := by linarith
  simp only [calculate_prcp_runoff]
  set wmm := wm * (1 + b) / (1 - im) with hwmm_def
  have hwmm : 0 < wmm := div_pos (by positivity) him
  have hbase0 : (0 : ℝ) ≤ 1 - w0 / wm := by
    have : w0 / wm ≤ 1 := (div_le_one hwm).mpr hw0m
    linarith
  have hbase1 : 1 - w0 / wm ≤ 1 := by
    have : 0 ≤ w0 / wm := div_nonneg hw00 hwm.le
    linarith
  set t := (1 - w0 / wm) ^ ((1 : ℝ) / (1 + b)) with ht_def
  have ht0 : 0 ≤ t := Real.rpow_nonneg hbase0 _
  have ht1 : t ≤ 1 := Real.rpow_le_one hbase0 hbase1 (by positivity)
  set a := wmm * (1 - t) with ha_def
  have ha0 : 0 ≤ a := by nlinarith
  have hkey : wm * t ^ ((1 : ℝ) + b) = wm - w0 := by
    have h1 : t ^ ((1 : ℝ) + b) = (1 - w0 / wm) ^ (((1 : ℝ) / (1 + b)) * ((1 : ℝ) + b)) := by
      rw [Real.rpow_mul hbase0]
    have h2 : ((1 : ℝ) / (1 + b)) * ((1 : ℝ) + b) = 1 := by field_simp
    rw [h1, h2, Real.rpow_one, mul_sub, mul_one, mul_div_cancel₀ _ hwm.ne']
  have haw : 1 - a / wmm = t := by
    rw [ha_def, mul_comm, mul_div_assoc, div_self hwmm.ne']
    ring
  have hrim1 : (0 : ℝ) ≤ max (pe * im) 0 := le_max_right _ _
  have hrim2 : max (pe * im) 0 ≤ pe := max_le (by nlinarith) hpe
  by_cases hcase : pe + a < wmm
  · rw [if_pos hcase]
    set u := 1 - (a + pe) / wmm with hu_def
    have hu0 : 0 ≤ u := by
      have : (a + pe) / wmm < 1 := (div_lt_one hwmm).mpr (by linarith)
      simp only [hu_def]; linarith
    have hut : u ≤ t := by
      have h3 : a / wmm ≤ (a + pe) / wmm :=
        (div_le_div_iff_of_pos_right hwmm).mpr (by linarith)
      rw [hu_def, ← haw]; linarith
    have hupow : u ^ ((1 : ℝ) + b) ≤ t ^ ((1 : ℝ) + b) :=
      Real.rpow_le_rpow hu0 hut h1b.le
    have hupow0 : 0 ≤ u ^ ((1 : ℝ) + b) := Real.rpow_nonneg hu0 _
    have hwmu0 : 0 ≤ wm * u ^ ((1 : ℝ) + b) := mul_nonneg hwm.le hupow0
    have hwmupow : wm * u ^ ((1 : ℝ) + b) ≤ wm - w0 := by
      calc wm * u ^ ((1 : ℝ) + b) ≤ wm * t ^ ((1 : ℝ) + b) := by nlinarith
        _ = wm - w0 := hkey
    refine ⟨le_max_right _ _, max_le (by linarith) hpe, ?_, hrim1, hrim2⟩
    exact le_trans (by linarith) (le_max_left _ _)
  · rw [if_neg hcase]
    refine ⟨le_max_right _ _, max_le (by linarith) hpe, le_max_left _ _, hrim1, hrim2⟩

/-- With zero net rainfall the runoff computation returns exactly `(0, 0)`. -/
theorem calculate_prcp_runoff_zero (b im wm w0 : ℝ)
    (hb : 0 < b) (him0 : 0 ≤ im) (him1 : im < 1) (hwm : 0 < wm)
    (hw00 : 0 ≤ w0) (hw0m : w0 ≤ wm) :
    calculate_prcp_runoff b im wm w0 0 = (0, 0) := by
  obtain ⟨h1, h2, -, h4, h5⟩ :=
    calculate_prcp_runoff_bounds b im wm w0 0 hb him0 him1 hwm hw00 hw0m le_rfl
  exact Prod.ext_iff.mpr ⟨le_antisymm h2 h1, le_antisymm h5 h4⟩

/-- The clipped soil-moisture state always lies inside its capacity box. -/
theorem calculate_w_storage_mem (um lm dm wu0 wl0 wd0 eu el ed p r : ℝ)
    (hum : 0 ≤ um) (hlm : 0 ≤ lm) (hdm : 0 ≤ dm) :
    0 ≤ (calculate_w_storage um lm dm wu0 wl0 wd0 eu el ed p r).1 ∧
    (calculate_w_storage um lm dm wu0 wl0 wd0 eu el ed p r).1 ≤ um ∧
    0 ≤ (calculate_w_storage um lm dm wu0 wl0 wd0 eu el ed p r).2.1 ∧
    (calculate_w_storage um lm dm wu0 wl0 wd0 eu el ed p r).2.1 ≤ lm ∧
    0 ≤ (calculate_w_storage um lm dm wu0 wl0 wd0 eu el ed p r).2.2 ∧
    (calculate_w_storage um lm dm wu0 wl0 wd0 eu el ed p r).2.2 ≤ dm := by
  simp only [calculate_w_storage]
  exact ⟨le_min (le_max_right _ _) hum, min_le_right _ _,
         le_min (le_max_right _ _) hlm, min_le_right _ _,
         le_min (le_max_right _ _) hdm, min_le_right _ _⟩

/-- Single-step water balance of the storage update: when the recomputed net
rainfall `p - e` is positive and the upper layer is not clipped at zero, the
clipping is the identity and the layer sum changes by exactly `(p - e) - r`. -/
theorem calculate_w_storage_closure (um lm dm wu0 wl0 wd0 eu el ed p r : ℝ)
    (hum : 0 < um) (hlm : 0 < lm) (hdm : 0 < dm)
    (hwu0 : 0 ≤ wu0) (hwu2 : wu0 ≤ um) (hwl0 : 0 ≤ wl0) (hwl2 : wl0 ≤ lm)
    (hwd0 : 0 ≤ wd0) (hwd2 : wd0 ≤ dm)
    (hpe : eu + el + ed < p)
    (hB : 0 ≤ wu0 + (p - (eu + el + ed)) - r)
    (hhigh : p - (eu + el + ed) - r ≤ um + lm + dm - (wu0 + wl0 + wd0)) :
    (calculate_w_storage um lm dm wu0 wl0 wd0 eu el ed p r).1 +
    (calculate_w_storage um lm dm wu0 wl0 wd0 eu el ed p r).2.1 +
    (calculate_w_storage um lm dm wu0 wl0 wd0 eu el ed p r).2.2 =
    wu0 + wl0 + wd0 + (p - (eu + el + ed)) - r := by
  simp only [calculate_w_storage]
  set e := eu + el + ed with he
  have hmax : max (p - e) 0 = p - e := max_eq_left (by linarith)
  rw [hmax]
  have hpos : p - e > 0 := by linarith
  simp only [if_pos hpos]
  by_cases h1 : wu0 + (p - e) - r < um
  · rw [if_pos h1]
    have h2 : ¬ (wu0 + wl0 + (p - e) - r > um + lm) := by linarith
    rw [if_neg h2]
    have e1 : wu0 + wl0 + wd0 + (p - e) - r - (wu0 + (p - e) - r) - wd0 = wl0 := by ring
    rw [e1, max_eq_left hB, min_eq_left h1.le, max_eq_left hwl0, min_eq_left hwl2,
        max_eq_left hwd0, min_eq_left hwd2]
    ring
  · rw [if_neg h1]
    push_neg at h1
    by_cases h2 : wu0 + wl0 + (p - e) - r > um + lm
    · rw [if_pos h2]
      have e1 : wu0 + wl0 + wd0 + (p - e) - r - um -
          (wu0 + wl0 + wd0 + (p - e) - r - um - lm) = lm := by ring
      rw [e1, max_eq_left hum.le, min_self, max_eq_left hlm.le, min_self,
          max_eq_left (by linarith), min_eq_left (by linarith)]
      ring
    · rw [if_neg h2]
      push_neg at h2
      have e1 : wu0 + wl0 + wd0 + (p - e) - r - um - wd0 =
          wu0 + wl0 + (p - e) - r - um := by ring
      rw [e1, max_eq_left hum.le, min_self, max_eq_left (by linarith),
          min_eq_left (by linarith), max_eq_left hwd0, min_eq_left hwd2]
      ring

/-- With zero evaporation demand and zero net rainfall the storage update
leaves every layer unchanged (the clipping is the identity on in-range
states). -/
theorem calculate_w_storage_zero (um lm dm wu0 wl0 wd0 : ℝ)
    (hwu : 0 ≤ wu0) (hwu2 : wu0 ≤ um) (hwl : 0 ≤ wl0) (hwl2 : wl0 ≤ lm)
    (hwd : 0 ≤ wd0) (hwd2 : wd0 ≤ dm) :
    calculate_w_storage um lm dm wu0 wl0 wd0 0 0 0 0 0 = (wu0, wl0, wd0) := by
  simp only [calculate_w_storage]
  norm_num
  rw [max_eq_left hwu, min_eq_left hwu2, max_eq_left hwl, min_eq_left hwl2,
      max_eq_left hwd, min_eq_left hwd2]
  exact ⟨rfl, rfl, rfl⟩

/-- Claim C10: for valid parameters, in-range antecedent moisture and
non-negative net rainfall, the generated runoff satisfies `0 ≤ r ≤ pe` and
the impervious-area runoff satisfies `0 ≤ r_im ≤ pe`. -/
theorem runoff_bounded_by_net_rainfall (b im wm w0 pe r rim : ℝ)
    (hcal : calculate_prcp_runoff b im wm w0 pe = (r, rim))
    (hb : 0 < b) (him0 : 0 ≤ im) (him1 : im < 1) (hwm : 0 < wm)
    (hw00 : 0 ≤ w0) (hw0m : w0 ≤ wm) (hpe : 0 ≤ pe) :
    0 ≤ r ∧ r ≤ pe ∧ 0 ≤ rim ∧ rim ≤ pe := by
  obtain ⟨h1, h2, -, h4, h5⟩ :=
    calculate_prcp_runoff_bounds b im wm w0 pe hb him0 him1 hwm hw00 hw0m hpe
  rw [hcal] at h1 h2 h4 h5
  exact ⟨h1, h2, h4, h5⟩

/-- Claim C10 witness at a concrete input. -/
theorem runoff_bounded_by_net_rainfall_witness :
    0 ≤ (calculate_prcp_runoff 1 0 30 0 1).1 ∧
    (calculate_prcp_runoff 1 0 30 0 1).1 ≤ 1 ∧
    0 ≤ (calculate_prcp_runoff 1 0 30 0 1).2 ∧
    (calculate_prcp_runoff 1 0 30 0 1).2 ≤ 1 :=
  runoff_bounded_by_net_rainfall 1 0 30 0 1
    (calculate_prcp_runoff 1 0 30 0 1).1 (calculate_prcp_runoff 1 0 30 0 1).2
    rfl (by norm_num) (by norm_num) (by norm_num) (by norm_num)
    (by norm_num) (by norm_num) (by norm_num)

/-- Claim C5: with zero precipitation and zero potential evapotranspiration,
the generation step produces zero runoff, zero impervious runoff, zero total
evaporation and zero net rainfall, and leaves all three soil layers exactly
unchanged. -/
theorem zero_forcing_idempotent (um lm dm c b im wu0 wl0 wd0 : ℝ)
    (hum : 0 < um) (hlm : 0 < lm) (hdm : 0 < dm)
    (hb : 0 < b) (him0 : 0 ≤ im) (him1 : im < 1)
    (hwu : 0 ≤ wu0) (hwu2 : wu0 ≤ um) (hwl : 0 ≤ wl0) (hwl2 : wl0 ≤ lm)
    (hwd : 0 ≤ wd0) (hwd2 : wd0 ≤ dm) :
    generation 0 0 um lm dm c b im (some wu0) (some wl0) (some wd0)
      = ((0, 0, 0, 0), (wu0, wl0, wd0)) := by
  have hw0if : (if wu0 + wl0 + wd0 > um + lm + dm then um + lm + dm
      else wu0 + wl0 + wd0) = wu0 + wl0 + wd0 := if_neg (by linarith)
  have hev := calculate_evap_zero lm c wu0 wl0 hwu hwl
  have hrun := calculate_prcp_runoff_zero b im (um + lm + dm) (wu0 + wl0 + wd0)
    hb him0 him1 (by linarith) (by linarith) (by linarith)
  have hsto := calculate_w_storage_zero um lm dm wu0 wl0 wd0 hwu hwu2 hwl hwl2 hwd hwd2
  simp only [generation, Option.getD_some, max_self, hw0if]
  norm_num [hev]
  norm_num [hrun, hsto]

/-- Claim C1 (amended): the single-timestep water balance of the generation
step. Because `generation` hands the net rainfall `pe` (not the raw
precipitation) to `calculate_w_storage`, which subtracts the total
evaporation `e` once more and clips, the closure
`WU + WL + WD = WU0 + WL0 + WD0 + pe - r - e` holds exactly when the
recomputed net rainfall is positive (`e < pe`) and the upper layer is not
clipped at zero (`0 ≤ WU0 + (pe - e) - r`); `pe > 0` alone does not
suffice. -/
theorem water_balance_closure_amended
    (prcp pet um lm dm c b im wu0 wl0 wd0 r rim e pe wu wl wd : ℝ)
    (hgen : generation prcp pet um lm dm c b im (some wu0) (some wl0) (some wd0)
            = ((r, rim, e, pe), (wu, wl, wd)))
    (hum : 0 < um) (hlm : 0 < lm) (hdm : 0 < dm)
    (hc : 0 ≤ c) (hb : 0 < b) (him0 : 0 ≤ im) (him1 : im < 1)
    (hwu : 0 ≤ wu0) (hwu2 : wu0 ≤ um) (hwl : 0 ≤ wl0) (hwl2 : wl0 ≤ lm)
    (hwd : 0 ≤ wd0) (hwd2 : wd0 ≤ dm)
    (hA : e < pe) (hB : 0 ≤ wu0 + (pe - e) - r) :
    wu + wl + wd = wu0 + wl0 + wd0 + pe - r - e := by
  have hw0if : (if wu0 + wl0 + wd0 > um + lm + dm then um + lm + dm
      else wu0 + wl0 + wd0) = wu0 + wl0 + wd0 := if_neg (by linarith)
  simp only [generation, Option.getD_some, hw0if, Prod.mk.injEq] at hgen
  obtain ⟨⟨hr, hrim, hE, hPE⟩, hW⟩ := hgen
  have hWU := congrArg Prod.fst hW
  have hWL := congrArg (fun t => t.2.1) hW
  have hWD := congrArg (fun t => t.2.2) hW
  dsimp only at hWU hWL hWD
  rw [← hWU, ← hWL, ← hWD, ← hPE, ← hr, ← hE]
  rw [← hE, ← hPE] at hA
  rw [← hE, ← hPE, ← hr] at hB
  obtain ⟨hev1, hev2, hev3⟩ := calculate_evap_nonneg lm c wu0 wl0 (max prcp 0) (max pet 0)
    hlm hc hwu hwl (le_max_right _ _) (le_max_right _ _)
  obtain ⟨-, -, hrlow, -, -⟩ := calculate_prcp_runoff_bounds b im (um + lm + dm)
    (wu0 + wl0 + wd0)
    (max (max prcp 0 -
      ((calculate_evap lm c wu0 wl0 (max prcp 0) (max pet 0)).1 +
       (calculate_evap lm c wu0 wl0 (max prcp 0) (max pet 0)).2.1 +
       (calculate_evap lm c wu0 wl0 (max prcp 0) (max pet 0)).2.2)) 0)
    hb him0 him1 (by linarith) (by linarith) (by linarith) (le_max_right _ _)
  have hclose := calculate_w_storage_closure um lm dm wu0 wl0 wd0
    (calculate_evap lm c wu0 wl0 (max prcp 0) (max pet 0)).1
    (calculate_evap lm c wu0 wl0 (max prcp 0) (max pet 0)).2.1
    (calculate_evap lm c wu0 wl0 (max prcp 0) (max pet 0)).2.2
    (max (max prcp 0 -
      ((calculate_evap lm c wu0 wl0 (max prcp 0) (max pet 0)).1 +
       (calculate_evap lm c wu0 wl0 (max prcp 0) (max pet 0)).2.1 +
       (calculate_evap lm c wu0 wl0 (max prcp 0) (max pet 0)).2.2)) 0)
    (calculate_prcp_runoff b im (um + lm + dm) (wu0 + wl0 + wd0)
      (max (max prcp 0 -
        ((calculate_evap lm c wu0 wl0 (max prcp 0) (max pet 0)).1 +
         (calculate_evap lm c wu0 wl0 (max prcp 0) (max pet 0)).2.1 +
         (calculate_evap lm c wu0 wl0 (max prcp 0) (max pet 0)).2.2)) 0)).1
    hum hlm hdm hwu hwu2 hwl hwl2 hwd hwd2 hA hB (by linarith)
  linarith [hclose]

/-- Concrete evaluation of the generation step at `prcp = 3`, `pet = 2`,
empty soil layers and capacities `10`: the returned tuple is
`((r, rim, e, pe), (wu, wl, wd)) = ((1/120, 0, 2, 1), (0, 0, 0))`. -/
theorem generation_eval_32 :
    generation 3 2 10 10 10 (1/2) 1 0 (some 0) (some 0) (some 0)
      = ((1/120, 0, 2, 1), (0, 0, 0)) := by
  have hev : calculate_evap 10 (1/2) 0 0 3 2 = (2, 0, 0) := by
    norm_num [calculate_evap]
  have hrun : calculate_prcp_runoff 1 0 30 0 1 = (1/120, 0) := by
    have h2 : ((1:ℝ) + 1) = (2:ℝ) := by norm_num
    norm_num [calculate_prcp_runoff, Real.one_rpow, h2, rpow_two_eval]
  have hsto : calculate_w_storage 10 10 10 0 0 0 2 0 0 1 (1/120) = (0, 0, 0) := by
    norm_num [calculate_w_storage]
  norm_num [generation, Option.getD_some, hev]
  norm_num [hrun, hsto]

/-- Concrete evaluation of the generation step at `prcp = 10`, `pet = 0`,
empty soil layers and capacities `10`:
`((r, rim, e, pe), (wu, wl, wd)) = ((5/6, 0, 0, 10), (55/6, 0, 0))`. -/
theorem generation_eval_10 :
    generation 10 0 10 10 10 (1/2) 1 0 (some 0) (some 0) (some 0)
      = ((5/6, 0, 0, 10), (55/6, 0, 0)) := by
  have hev : calculate_evap 10 (1/2) 0 0 10 0 = (0, 0, 0) := by
    norm_num [calculate_evap]
  have hrun : calculate_prcp_runoff 1 0 30 0 10 = (5/6, 0) := by
    have h2 : ((1:ℝ) + 1) = (2:ℝ) := by norm_num
    norm_num [calculate_prcp_runoff, Real.one_rpow, h2, rpow_two_eval]
  have hsto : calculate_w_storage 10 10 10 0 0 0 0 0 0 10 (5/6) = (55/6, 0, 0) := by
    norm_num [calculate_w_storage]
  norm_num [generation, Option.getD_some, hev]
  norm_num [hrun, hsto]

/-- Claim C1 counterexample: at `prcp = 3`, `pet = 2`, valid parameters
`UM = LM = DM = 10`, `C = 1/2`, `B = 1`, `IM = 0` and the in-range prior
state `(0, 0, 0)`, the returned net rainfall is `pe = 1 > 0`, yet the
updated layer sum is `0` while `WU0 + WL0 + WD0 + pe - r - e = -121/120`:
the claimed closure fails even though `pe > 0`. -/
theorem water_balance_closure_cex :
    ¬ ((generation 3 2 10 10 10 (1/2) 1 0 (some 0) (some 0) (some 0)).2.1 +
       (generation 3 2 10 10 10 (1/2) 1 0 (some 0) (some 0) (some 0)).2.2.1 +
       (generation 3 2 10 10 10 (1/2) 1 0 (some 0) (some 0) (some 0)).2.2.2 =
       0 + 0 + 0 +
       (generation 3 2 10 10 10 (1/2) 1 0 (some 0) (some 0) (some 0)).1.2.2.2 -
       (generation 3 2 10 10 10 (1/2) 1 0 (some 0) (some 0) (some 0)).1.1 -
       (generation 3 2 10 10 10 (1/2) 1 0 (some 0) (some 0) (some 0)).1.2.2.1) := by
  rw [generation_eval_32]
  norm_num

/-- Claim C1 witness: a concrete input satisfying the amended hypotheses,
with the closure conclusion delivered by the amended theorem. -/
theorem water_balance_closure_amended_witness :
    ((0:ℝ) < 10) ∧ ((0:ℝ) ≤ 0 + ((10:ℝ) - 0) - 5/6) ∧
    ((55/6 : ℝ) + 0 + 0 = 0 + 0 + 0 + 10 - 5/6 - 0) :=
  ⟨by norm_num, by norm_num,
   water_balance_closure_amended 10 0 10 10 10 (1/2) 1 0 0 0 0 (5/6) 0 0 10 (55/6) 0 0
     generation_eval_10 (by norm_num) (by norm_num) (by norm_num) (by norm_num)
     (by norm_num) (by norm_num) (by norm_num) (by norm_num) (by norm_num)
     (by norm_num) (by norm_num) (by norm_num) (by norm_num) (by norm_num)
     (by norm_num)⟩

/-- Claim C3 (amended): when `pe < 1e-5` the standard partitioner keeps the
area fraction at `fr0`; the returned storage, however, is not `s0` — even
with `pe = 0` and `r = 0` it is `s0 * (1 - KI - KG)`, because the interflow
and groundwater outflow are still drawn from the tank. -/
theorem sources_small_pe_guard_amended
    (pe r sm ex ki kg s0 fr0 rs ri rg fr s1 : ℝ)
    (hsrc : sources pe r sm ex ki kg (some s0) (some fr0) = ((rs, ri, rg), (fr, s1)))
    (hpe : pe < 1e-5) (hfr0 : 0 < fr0) (hsm : 0 < sm) (hex : 0 < ex)
    (hs00 : 0 ≤ s0) (hs0m : s0 ≤ sm) :
    fr = fr0 ∧ (pe = 0 → r = 0 → s1 = s0 * (1 - ki - kg)) := by
  simp only [sources, Option.getD_some, if_pos hpe, Prod.mk.injEq] at hsrc
  obtain ⟨⟨hrs, hri, hrg⟩, hfr, hs1⟩ := hsrc
  refine ⟨hfr.symm, ?_⟩
  intro hpe0 hr0
  subst hpe0 hr0
  rw [← hs1]
  have hfr0' : fr0 ≠ 0 := ne_of_gt hfr0
  have hc0 : fr0 * s0 / fr0 = s0 := mul_div_cancel_left₀ s0 hfr0'
  rw [hc0]
  have h1ex : (0:ℝ) < 1 + ex := by linarith
  have hms : (0:ℝ) < sm * (1 + ex) := by positivity
  by_cases hcase : s0 = sm
  · rw [hcase]
    have hb0 : (1:ℝ) - sm / sm = 0 := by field_simp
    rw [hb0, Real.zero_rpow (ne_of_gt (div_pos one_pos h1ex))]
    have hcond : ¬ ((0:ℝ) + sm * (1 + ex) * (1 - 0) < sm * (1 + ex)) := by
      norm_num
    rw [if_neg hcond]
    field_simp
  · have hcase2 : s0 < sm := lt_of_le_of_ne hs0m hcase
    have hb0 : (0:ℝ) < 1 - s0 / sm := by
      have : s0 / sm < 1 := (div_lt_one hsm).mpr hcase2
      linarith
    set t := ((1:ℝ) - s0 / sm) ^ ((1:ℝ) / (1 + ex)) with ht_def
    have ht0 : 0 < t := Real.rpow_pos_of_pos hb0 _
    have hcond : (0:ℝ) + sm * (1 + ex) * (1 - t) < sm * (1 + ex) := by nlinarith
    rw [if_pos hcond]
    have htp : t ^ (ex + 1) = 1 - s0 / sm := by
      rw [ht_def, ← Real.rpow_mul hb0.le]
      rw [show ((1:ℝ) / (1 + ex)) * (ex + 1) = 1 by field_simp; ring]
      exact Real.rpow_one _
    have harg : (1:ℝ) - ((0:ℝ) + sm * (1 + ex) * (1 - t)) / (sm * (1 + ex)) = t := by
      field_simp
    rw [harg, htp]
    have hsm2 : sm ≠ 0 := ne_of_gt hsm
    field_simp

/-- Concrete evaluation of the standard partitioner at `pe = 0`, `r = 0`,
`sm = 1`, `ex = 1`, `ki = kg = 3/10`, `s0 = 1`, `fr0 = 1/2`. -/
theorem sources_eval_guard :
    sources 0 0 1 1 (3/10) (3/10) (some 1) (some (1/2))
      = ((0, 3/20, 3/20), (1/2, 2/5)) := by
  norm_num [sources, Real.zero_rpow]

/-- Claim C3 counterexample: with valid parameters `SM = 1`, `EX = 1`,
`KI = KG = 3/10` and prior state `s0 = 1`, `fr0 = 1/2`, a call with
`pe = 0 < 1e-5` and `r = 0` returns `fr = fr0` but storage
`2/5 = s0 * (1 - KI - KG) ≠ s0`: runoff-free steps still drain the tank,
so the claimed pair `(fr, s) = (fr0, s0)` is false. -/
theorem sources_small_pe_guard_cex :
    ¬ ((sources 0 0 1 1 (3/10) (3/10) (some 1) (some (1/2))).2.1 = 1/2 ∧
       (sources 0 0 1 1 (3/10) (3/10) (some 1) (some (1/2))).2.2 = 1) := by
  rw [sources_eval_guard]
  norm_num

/-- Claim C3 witness for the amended statement at the same concrete input. -/
theorem sources_small_pe_guard_amended_witness :
    ((1/2 : ℝ) = 1/2) ∧ ((0:ℝ) = 0 → (0:ℝ) = 0 → (2/5 : ℝ) = 1 * (1 - 3/10 - 3/10)) :=
  sources_small_pe_guard_amended 0 0 1 1 (3/10) (3/10) 1 (1/2) 0 (3/20) (3/20) (1/2) (2/5)
    sources_eval_guard (by norm_num) (by norm_num) (by norm_num) (by norm_num)
    (by norm_num) (by norm_num)

/-- Claim C8: with `pe ≥ 1e-5` the standard partitioner sets `fr = r / pe`
and divides by it; at `r = 0` this is a division by zero (the instrumented
computation aborts), and with `r > 0` every `/fr` division is defined —
totality needs the precondition `r > 0`, which the interface does not
state. -/
theorem sources_zero_runoff_div_zero (pe r sm ex ki kg s0 fr0 : ℝ)
    (hpe : 1e-5 ≤ pe) :
    (r = 0 → sources_checked pe r sm ex ki kg (some s0) (some fr0) = none) ∧
    (0 < r → (sources_checked pe r sm ex ki kg (some s0) (some fr0)).isSome = true) := by
  have hpe2 : ¬ (pe < 1e-5) := not_lt.mpr hpe
  have hpe0 : (0:ℝ) < pe := lt_of_lt_of_le (by norm_num) hpe
  constructor
  · intro hr0
    subst hr0
    simp [sources_checked, checkedDiv, if_neg hpe2, zero_div]
  · intro hr
    have hfr : r / pe ≠ 0 := ne_of_gt (div_pos hr hpe0)
    simp [sources_checked, checkedDiv, if_neg hpe2, if_neg hfr, hfr]

/-- Claim C8 witness: at `pe = 1` the instrumented partitioner aborts on a
division by zero for `r = 0` and succeeds for `r = 1`. -/
theorem sources_zero_runoff_div_zero_witness :
    sources_checked 1 0 1 1 (1/2) (1/4) (some 1) (some (1/2)) = none ∧
    (sources_checked 1 1 1 1 (1/2) (1/4) (some 1) (some (1/2))).isSome = true :=
  ⟨(sources_zero_runoff_div_zero 1 0 1 1 (1/2) (1/4) 1 (1/2) (by norm_num)).1 rfl,
   (sources_zero_runoff_div_zero 1 1 1 1 (1/2) (1/4) 1 (1/2) (by norm_num)).2 (by norm_num)⟩

/-- Claim C9: the coefficient conversion of the sub-stepped partitioner
divides by `KI` (and further by quantities built from that quotient), so
every call with `KI = 0` performs a division by zero; with `KI > 0`,
`KG ≥ 0` and `KI + KG < 1` every division in the conversion is defined. -/
theorem sources5mm_ki_zero_div_zero (kg : ℝ) (tih n : ℕ) (ki2 kg2 : ℝ) (tih2 n2 : ℕ)
    (h1 : 0 < ki2) (h2 : 0 ≤ kg2) (h3 : ki2 + kg2 < 1) (h4 : 0 < tih2) (h5 : 0 < n2) :
    sources5mm_kcoeffs_checked 0 kg tih n = none ∧
    (sources5mm_kcoeffs_checked ki2 kg2 tih2 n2).isSome = true := by
  constructor
  · simp [sources5mm_kcoeffs_checked, checkedDiv]
  · have hki : ki2 ≠ 0 := ne_of_gt h1
    have hq1 : (0:ℝ) ≤ kg2 / ki2 := div_nonneg h2 h1.le
    have hd1 : (1:ℝ) + kg2 / ki2 ≠ 0 := ne_of_gt (by linarith)
    have hpnum : 0 < period_num_1d tih2 := by
      unfold period_num_1d
      by_cases h : 24 % tih2 = 0
      · rw [if_pos h]
        have h24 : 0 < 24 / tih2 :=
          Nat.div_pos (Nat.le_of_dvd (by norm_num) (Nat.dvd_of_mod_eq_zero h)) h4
        simpa using h24
      · rw [if_neg h]
        exact Nat.succ_pos _
    have hd1b : (0:ℝ) < 1 + kg2 / ki2 := by linarith
    have hpnumR : (0:ℝ) < ((period_num_1d tih2 : ℕ) : ℝ) := by exact_mod_cast hpnum
    have hX : (0:ℝ) < 1 - (1 - (ki2 + kg2)) ^ ((1:ℝ) / ((period_num_1d tih2 : ℕ) : ℝ)) := by
      have hb0 : (0:ℝ) ≤ 1 - (ki2 + kg2) := by linarith
      have hb1 : 1 - (ki2 + kg2) < 1 := by linarith
      have hlt := Real.rpow_lt_one hb0 hb1
        (div_pos one_pos hpnumR : (0:ℝ) < (1:ℝ) / ((period_num_1d tih2 : ℕ) : ℝ))
      linarith
    have hkssp : (0:ℝ) <
        (1 - (1 - (ki2 + kg2)) ^ ((1:ℝ) / ((period_num_1d tih2 : ℕ) : ℝ))) / (1 + kg2 / ki2) :=
      div_pos hX hd1b
    have hksspne :
        (1 - (1 - (ki2 + kg2)) ^ ((1:ℝ) / ((period_num_1d tih2 : ℕ) : ℝ))) / (1 + kg2 / ki2) ≠ 0 :=
      ne_of_gt hkssp
    have hkgp : (0:ℝ) ≤
        (1 - (1 - (ki2 + kg2)) ^ ((1:ℝ) / ((period_num_1d tih2 : ℕ) : ℝ))) / (1 + kg2 / ki2) *
          kg2 / ki2 :=
      div_nonneg (mul_nonneg hkssp.le h2) h1.le
    have hq2 : (0:ℝ) ≤
        ((1 - (1 - (ki2 + kg2)) ^ ((1:ℝ) / ((period_num_1d tih2 : ℕ) : ℝ))) / (1 + kg2 / ki2) *
          kg2 / ki2) /
        ((1 - (1 - (ki2 + kg2)) ^ ((1:ℝ) / ((period_num_1d tih2 : ℕ) : ℝ))) / (1 + kg2 / ki2)) :=
      div_nonneg hkgp hkssp.le
    have hd2 : (1:ℝ) +
        ((1 - (1 - (ki2 + kg2)) ^ ((1:ℝ) / ((period_num_1d tih2 : ℕ) : ℝ))) / (1 + kg2 / ki2) *
          kg2 / ki2) /
        ((1 - (1 - (ki2 + kg2)) ^ ((1:ℝ) / ((period_num_1d tih2 : ℕ) : ℝ))) / (1 + kg2 / ki2)) ≠
        0 :=
      ne_of_gt (by linarith)
    simp only [sources5mm_kcoeffs_checked, checkedDiv, if_neg hki, if_neg hd1,
      if_neg hksspne, if_neg hd2, Option.isSome_some]

/-- Claim C9 witness: `KI = 0` aborts; `KI = 1/2, KG = 1/4` succeeds. -/
theorem sources5mm_ki_zero_div_zero_witness :
    sources5mm_kcoeffs_checked 0 1 24 1 = none ∧
    (sources5mm_kcoeffs_checked (1/2) (1/4) 24 1).isSome = true :=
  sources5mm_ki_zero_div_zero 1 24 1 (1/2) (1/4) 24 1
    (by norm_num) (by norm_num) (by norm_num) (by norm_num) (by norm_num)

/-- Claim C5 witness at a concrete in-range input. -/
theorem zero_forcing_idempotent_witness :
    generation 0 0 1 1 1 (1/2) 1 0 (some (1/2)) (some (1/2)) (some (1/2))
      = ((0, 0, 0, 0), (1/2, 1/2, 1/2)) :=
  zero_forcing_idempotent 1 1 1 (1/2) 1 0 (1/2) (1/2) (1/2)
    (by norm_num) (by norm_num) (by norm_num) (by norm_num) (by norm_num)
    (by norm_num) (by norm_num) (by norm_num) (by norm_num) (by norm_num)
    (by norm_num) (by norm_num)

/-- Unfolding of the slice loop for a single slice: one application of the
slice update, with the totals started at zero. -/
theorem sources5mm_go_one (book : String) (sm ex smm pen rn kssd kgd frd frp sp : ℝ) :
    sources5mm_go book sm ex smm pen rn kssd kgd frd 1 frp sp (0, 0, 0)
      = ((xaj_5mm_slice book sm ex smm pen rn kssd kgd frd frp sp).1,
         frd, (xaj_5mm_slice book sm ex smm pen rn kssd kgd frd frp sp).2) := by
  show sources5mm_go book sm ex smm pen rn kssd kgd frd (0 + 1) frp sp (0, 0, 0) = _
  rw [sources5mm_go, sources5mm_go]
  simp

/-- Claim C6: when the generated runoff is below 5 mm the sub-stepped
partitioner uses `n = 1` slice, and its result coincides exactly with one
application of the selected book formulation's closed-form slice update with
the full net rainfall and runoff and the per-period coefficients
(`sources5mm_single`): no further sub-slicing occurs. -/
theorem sources5mm_single_slice_reduction
    (pe runoff sm ex ki kg : ℝ) (s0o fr0o : Option ℝ) (tih : ℕ) (book : String)
    (hr5 : runoff < 5) (hki : 0 < ki) (hkg : 0 ≤ kg) (hsum : ki + kg < 1)
    (htih : 0 < tih) :
    sources5mm_n runoff = 1 ∧
    sources5mm pe runoff sm ex ki kg s0o fr0o tih book
      = sources5mm_single pe runoff sm ex ki kg s0o fr0o tih book := by
  have hn : sources5mm_n runoff = 1 := if_pos hr5
  refine ⟨hn, ?_⟩
  have hki0 : ki ≠ 0 := ne_of_gt hki
  have hq1 : (0:ℝ) ≤ kg / ki := div_nonneg hkg hki.le
  have hd1b : (0:ℝ) < 1 + kg / ki := by linarith
  have hpnum : 0 < period_num_1d tih := by
    unfold period_num_1d
    by_cases h : 24 % tih = 0
    · rw [if_pos h]
      have h24 : 0 < 24 / tih :=
        Nat.div_pos (Nat.le_of_dvd (by norm_num) (Nat.dvd_of_mod_eq_zero h)) htih
      simpa using h24
    · rw [if_neg h]
      exact Nat.succ_pos _
  have hpnumR : (0:ℝ) < ((period_num_1d tih : ℕ) : ℝ) := by exact_mod_cast hpnum
  have hX : (0:ℝ) < 1 - (1 - (ki + kg)) ^ ((1:ℝ) / ((period_num_1d tih : ℕ) : ℝ)) := by
    have hb0 : (0:ℝ) ≤ 1 - (ki + kg) := by linarith
    have hb1 : 1 - (ki + kg) < 1 := by linarith
    have hlt := Real.rpow_lt_one hb0 hb1
      (div_pos one_pos hpnumR : (0:ℝ) < (1:ℝ) / ((period_num_1d tih : ℕ) : ℝ))
    linarith
  have hkssp : (0:ℝ) <
      (1 - (1 - (ki + kg)) ^ ((1:ℝ) / ((period_num_1d tih : ℕ) : ℝ))) / (1 + kg / ki) :=
    div_pos hX hd1b
  have hksspne :
      (1 - (1 - (ki + kg)) ^ ((1:ℝ) / ((period_num_1d tih : ℕ) : ℝ))) / (1 + kg / ki) ≠ 0 :=
    ne_of_gt hkssp
  have hkgp : (0:ℝ) ≤
      (1 - (1 - (ki + kg)) ^ ((1:ℝ) / ((period_num_1d tih : ℕ) : ℝ))) / (1 + kg / ki) *
        kg / ki :=
    div_nonneg (mul_nonneg hkssp.le hkg) hki.le
  have e1 :
      ((1 - (1 - (ki + kg)) ^ ((1:ℝ) / ((period_num_1d tih : ℕ) : ℝ))) / (1 + kg / ki) +
        (1 - (1 - (ki + kg)) ^ ((1:ℝ) / ((period_num_1d tih : ℕ) : ℝ))) / (1 + kg / ki) *
          kg / ki) /
      (1 + ((1 - (1 - (ki + kg)) ^ ((1:ℝ) / ((period_num_1d tih : ℕ) : ℝ))) / (1 + kg / ki) *
          kg / ki) /
        ((1 - (1 - (ki + kg)) ^ ((1:ℝ) / ((period_num_1d tih : ℕ) : ℝ))) / (1 + kg / ki))) =
      (1 - (1 - (ki + kg)) ^ ((1:ℝ) / ((period_num_1d tih : ℕ) : ℝ))) / (1 + kg / ki) := by
    generalize hA : (1 - (1 - (ki + kg)) ^ ((1:ℝ) / ((period_num_1d tih : ℕ) : ℝ))) /
        (1 + kg / ki) = A at hkssp hksspne hkgp
    field_simp
    ring
  have e2 :
      (1 - (1 - (ki + kg)) ^ ((1:ℝ) / ((period_num_1d tih : ℕ) : ℝ))) / (1 + kg / ki) *
        ((1 - (1 - (ki + kg)) ^ ((1:ℝ) / ((period_num_1d tih : ℕ) : ℝ))) / (1 + kg / ki) *
          kg / ki) /
      ((1 - (1 - (ki + kg)) ^ ((1:ℝ) / ((period_num_1d tih : ℕ) : ℝ))) / (1 + kg / ki)) =
      (1 - (1 - (ki + kg)) ^ ((1:ℝ) / ((period_num_1d tih : ℕ) : ℝ))) / (1 + kg / ki) *
        kg / ki := by
    generalize hA : (1 - (1 - (ki + kg)) ^ ((1:ℝ) / ((period_num_1d tih : ℕ) : ℝ))) /
        (1 + kg / ki) = A at hksspne
    rw [mul_div_assoc, mul_div_assoc]
    rw [mul_div_cancel_left₀ _ hksspne]
  simp only [sources5mm, sources5mm_single, hn, Nat.cast_one, div_one, Real.rpow_one,
    sub_sub_cancel, sources5mm_go_one, e1, e2]

/-- Claim C6 witness: the concrete call with `runoff = 4 < 5`. -/
theorem sources5mm_single_slice_reduction_witness :
    sources5mm_n (4:ℝ) = 1 ∧
    sources5mm 4 4 200 1 (3/10) (1/10) (some 250) (some 1) 24 "ShuiWenYuBao"
      = sources5mm_single 4 4 200 1 (3/10) (1/10) (some 250) (some 1) 24 "ShuiWenYuBao" :=
  sources5mm_single_slice_reduction 4 4 200 1 (3/10) (1/10) (some 250) (some 1) 24
    "ShuiWenYuBao" (by norm_num) (by norm_num) (by norm_num) (by norm_num) (by norm_num)

/-- A successful driver step stores exactly the generation step's updated
(and clipped) soil state in its middle component. -/
theorem xaj_step_ok_w (um lm dm c b im sm ex ki kg : ℝ) (st bk : String)
    (w : Option ℝ × Option ℝ × Option ℝ) (S : Option ℝ × Option ℝ) (pq : ℝ × ℝ)
    (r : (ℝ × ℝ × ℝ × ℝ) × (ℝ × ℝ × ℝ) × (ℝ × ℝ))
    (h : xaj_step um lm dm c b im sm ex ki kg st bk w S pq = Except.ok r) :
    r.2.1 = (generation pq.1 pq.2 um lm dm c b im w.1 w.2.1 w.2.2).2 := by
  unfold xaj_step at h
  by_cases h1 : st = "sources"
  · rw [if_pos h1] at h
    injection h with h
    subst h
    rfl
  · rw [if_neg h1] at h
    by_cases h2 : st = "sources5mm"
    · rw [if_pos h2] at h
      injection h with h
      subst h
      rfl
    · rw [if_neg h2] at h
      exact absurd h (by simp)

/-- The generation step's returned soil state is always inside the capacity
box (it is clipped). -/
theorem generation_w_mem (prcp pet um lm dm c b im : ℝ) (wu0o wl0o wd0o : Option ℝ)
    (hum : 0 ≤ um) (hlm : 0 ≤ lm) (hdm : 0 ≤ dm) :
    0 ≤ (generation prcp pet um lm dm c b im wu0o wl0o wd0o).2.1 ∧
    (generation prcp pet um lm dm c b im wu0o wl0o wd0o).2.1 ≤ um ∧
    0 ≤ (generation prcp pet um lm dm c b im wu0o wl0o wd0o).2.2.1 ∧
    (generation prcp pet um lm dm c b im wu0o wl0o wd0o).2.2.1 ≤ lm ∧
    0 ≤ (generation prcp pet um lm dm c b im wu0o wl0o wd0o).2.2.2 ∧
    (generation prcp pet um lm dm c b im wu0o wl0o wd0o).2.2.2 ≤ dm := by
  simp only [generation]
  exact calculate_w_storage_mem _ _ _ _ _ _ _ _ _ _ _ hum hlm hdm

/-- Claim C2 (amended): for non-negative capacities, every record of a
successful simulation loop run — whatever the source type, book, forcing and
initial state — has its soil-moisture state inside the capacity box
`[0, UM] × [0, LM] × [0, DM]`. (The other state variables are not all
non-negative; see the counterexample for `S < 0`.) -/
theorem simulation_soil_bounds_amended (um lm dm c b im sm ex ki kg : ℝ)
    (st bk : String) (hum : 0 ≤ um) (hlm : 0 ≤ lm) (hdm : 0 ≤ dm) :
    ∀ (forcing : List (ℝ × ℝ)) (w : Option ℝ × Option ℝ × Option ℝ)
      (S : Option ℝ × Option ℝ)
      (res : List ((ℝ × ℝ × ℝ × ℝ) × (ℝ × ℝ × ℝ) × (ℝ × ℝ))),
      xaj_loop um lm dm c b im sm ex ki kg st bk w S forcing = Except.ok res →
      ∀ x ∈ res,
        0 ≤ x.2.1.1 ∧ x.2.1.1 ≤ um ∧ 0 ≤ x.2.1.2.1 ∧ x.2.1.2.1 ≤ lm ∧
        0 ≤ x.2.1.2.2 ∧ x.2.1.2.2 ≤ dm := by
  intro forcing
  induction forcing with
  | nil =>
    intro w S res hrun x hx
    simp only [xaj_loop, Except.ok.injEq] at hrun
    subst hrun
    simp at hx
  | cons pq rest ih =>
    intro w S res hrun x hx
    simp only [xaj_loop] at hrun
    cases hstep : xaj_step um lm dm c b im sm ex ki kg st bk w S pq with
    | error e =>
      simp only [hstep] at hrun
      exact absurd hrun (by simp)
    | ok r =>
      simp only [hstep] at hrun
      cases hrec : xaj_loop um lm dm c b im sm ex ki kg st bk
          (some r.2.1.1, some r.2.1.2.1, some r.2.1.2.2)
          (some r.2.2.1, some r.2.2.2) rest with
      | error e =>
        simp only [hrec] at hrun
        exact absurd hrun (by simp)
      | ok rs =>
        simp only [hrec, Except.ok.injEq] at hrun
        subst hrun
        rcases List.mem_cons.mp hx with rfl | hx2
        · have hw := xaj_step_ok_w um lm dm c b im sm ex ki kg st bk w S pq x hstep
          rw [hw]
          exact generation_w_mem pq.1 pq.2 um lm dm c b im w.1 w.2.1 w.2.2 hum hlm hdm
        · exact ih _ _ _ hrec x hx2

/-- Concrete evaluation of the generation step at `prcp = 4`, `pet = 0`,
full soil layers `(10, 10, 10)` with capacities `10`. -/
theorem generation_eval_full :
    generation 4 0 10 10 10 (1/2) 1 0 (some 10) (some 10) (some 10)
      = ((4, 0, 0, 4), (10, 10, 10)) := by
  have hev : calculate_evap 10 (1/2) 10 10 4 0 = (0, 0, 0) := by
    norm_num [calculate_evap]
  have hrun : calculate_prcp_runoff 1 0 30 30 4 = (4, 0) := by
    norm_num [calculate_prcp_runoff, Real.zero_rpow]
  have hsto : calculate_w_storage 10 10 10 10 10 10 0 0 0 4 4 = (10, 10, 10) := by
    norm_num [calculate_w_storage]
  norm_num [generation, Option.getD_some, hev]
  norm_num [hrun, hsto]

/-- Concrete evaluation of the sub-stepped partitioner with `runoff = 4`,
`SM = 200`, `EX = 1`, `KI = 3/10`, `KG = 1/10`, prior state `s0 = 250`,
`fr0 = 1`: the book-1 slice drives the final storage to `-7800`. -/
theorem sources5mm_eval_neg :
    sources5mm 4 4 200 1 (3/10) (1/10) (some 250) (some 1) 24 "ShuiWenYuBao"
      = ((4, 60, 20), 1, -7800) := by
  have hn : sources5mm_n (4:ℝ) = 1 := if_pos (by norm_num)
  have hpnum : period_num_1d 24 = 1 := by norm_num [period_num_1d]
  have hslice : xaj_5mm_slice "ShuiWenYuBao" 200 1 400 4 4 (3/10) (1/10) 1 1 250
      = ((4, 60, 20), -7800) := by
    norm_num [xaj_5mm_slice, Real.zero_rpow]
  simp only [sources5mm, hn, hpnum, Option.getD_some, Nat.cast_one, div_one,
    Real.rpow_one, sources5mm_go_one]
  norm_num [hslice]

/-- Concrete evaluation of one driver loop step under `sources5mm`. -/
theorem xaj_loop_eval_neg :
    xaj_loop 10 10 10 (1/2) 1 0 200 1 (3/10) (1/10) "sources5mm" "ShuiWenYuBao"
      (some 10, some 10, some 10) (some 250, some 1) [(4, 0)]
      = Except.ok [((0, 4, 60, 20), (10, 10, 10), (1, -7800))] := by
  simp only [xaj_loop, xaj_step]
  norm_num [generation_eval_full]
  norm_num [sources5mm_eval_neg]
  rw [if_neg (show ("sources5mm" : String) ≠ "sources" by decide)]

/-- Concrete evaluation of the generation step with zero forcing, capacities
`1` and empty layers. -/
theorem generation_eval_zero1 :
    generation 0 0 1 1 1 (1/2) 1 0 (some 0) (some 0) (some 0)
      = ((0, 0, 0, 0), (0, 0, 0)) := by
  have hev : calculate_evap 1 (1/2) 0 0 0 0 = (0, 0, 0) := by
    norm_num [calculate_evap]
  have hrun : calculate_prcp_runoff 1 0 3 0 0 = (0, 0) := by
    norm_num [calculate_prcp_runoff, Real.one_rpow]
  have hsto : calculate_w_storage 1 1 1 0 0 0 0 0 0 0 0 = (0, 0, 0) := by
    norm_num [calculate_w_storage]
  norm_num [generation, Option.getD_some, hev]
  norm_num [hrun, hsto]

/-- Concrete evaluation of the standard partitioner at `pe = r = 0` with a
full tank. -/
theorem sources_eval_zero1 :
    sources 0 0 1 1 (1/4) (1/4) (some 1) (some (1/2))
      = ((0, 1/8, 1/8), (1/2, 1/2)) := by
  norm_num [sources, Real.zero_rpow]

/-- Concrete evaluation of one driver loop step under `sources`. -/
theorem xaj_loop_eval_zero1 :
    xaj_loop 1 1 1 (1/2) 1 0 1 1 (1/4) (1/4) "sources" "ShuiWenYuBao"
      (some 0, some 0, some 0) (some 1, some (1/2)) [(0, 0)]
      = Except.ok [((0, 0, 1/8, 1/8), (0, 0, 0), (1/2, 1/2))] := by
  simp only [xaj_loop, xaj_step]
  norm_num [generation_eval_zero1]
  norm_num [sources_eval_zero1]

/-- Claim C2 counterexample: a one-step run with valid parameters
(`B = 1`, `IM = 0`, `UM = LM = DM = 10`, `C = 1/2`, `SM = 200`, `EX = 1`,
`KI = 3/10`, `KG = 1/10`), non-negative forcing `(4, 0)`, in-range soil
state and non-negative tank state (`S0 = 250`, `FR0 = 1`), run under
`sources5mm`/ShuiWenYuBao: the free-water storage it returns is
`S = -7800 < 0`, so the global non-negativity invariant is false. -/
theorem simulation_state_nonneg_cex :
    xaj_loop 10 10 10 (1/2) 1 0 200 1 (3/10) (1/10) "sources5mm" "ShuiWenYuBao"
      (some 10, some 10, some 10) (some 250, some 1) [(4, 0)]
      = Except.ok [((0, 4, 60, 20), (10, 10, 10), (1, -7800))] ∧ ((-7800 : ℝ) < 0) :=
  ⟨xaj_loop_eval_neg, by norm_num⟩

/-- Claim C2 witness: the amended soil-bounds invariant applied to a
concrete successful run. -/
theorem simulation_soil_bounds_amended_witness :
    0 ≤ ((((0:ℝ), (0:ℝ), (1/8:ℝ), (1/8:ℝ)), ((0:ℝ), (0:ℝ), (0:ℝ)),
          ((1/2:ℝ), (1/2:ℝ)))).2.1.1 ∧
    ((((0:ℝ), (0:ℝ), (1/8:ℝ), (1/8:ℝ)), ((0:ℝ), (0:ℝ), (0:ℝ)),
      ((1/2:ℝ), (1/2:ℝ)))).2.1.1 ≤ 1 ∧
    0 ≤ ((((0:ℝ), (0:ℝ), (1/8:ℝ), (1/8:ℝ)), ((0:ℝ), (0:ℝ), (0:ℝ)),
          ((1/2:ℝ), (1/2:ℝ)))).2.1.2.1 ∧
    ((((0:ℝ), (0:ℝ), (1/8:ℝ), (1/8:ℝ)), ((0:ℝ), (0:ℝ), (0:ℝ)),
      ((1/2:ℝ), (1/2:ℝ)))).2.1.2.1 ≤ 1 ∧
    0 ≤ ((((0:ℝ), (0:ℝ), (1/8:ℝ), (1/8:ℝ)), ((0:ℝ), (0:ℝ), (0:ℝ)),
          ((1/2:ℝ), (1/2:ℝ)))).2.1.2.2 ∧
    ((((0:ℝ), (0:ℝ), (1/8:ℝ), (1/8:ℝ)), ((0:ℝ), (0:ℝ), (0:ℝ)),
      ((1/2:ℝ), (1/2:ℝ)))).2.1.2.2 ≤ 1 :=
  simulation_soil_bounds_amended 1 1 1 (1/2) 1 0 1 1 (1/4) (1/4) "sources" "ShuiWenYuBao"
    (by norm_num) (by norm_num) (by norm_num) [(0, 0)]
    (some 0, some 0, some 0) (some 1, some (1/2))
    [((0, 0, 1/8, 1/8), (0, 0, 0), (1/2, 1/2))] xaj_loop_eval_zero1
    ((0, 0, 1/8, 1/8), (0, 0, 0), (1/2, 1/2)) (by simp)

/-- A successful state resolution of a supplied mapping requires every one
of the eight keys to be present: the driver reads them unconditionally. -/
theorem xaj_read_states_ok_isSome (m : List (String × ℝ))
    (st8 : Option ℝ × Option ℝ × Option ℝ × Option ℝ ×
           Option ℝ × Option ℝ × Option ℝ × Option ℝ)
    (h : xaj_read_states (some m) = Except.ok st8) :
    (m.lookup "WU0").isSome = true ∧ (m.lookup "WL0").isSome = true ∧
    (m.lookup "WD0").isSome = true ∧ (m.lookup "S0").isSome = true ∧
    (m.lookup "FR0").isSome = true ∧ (m.lookup "QS0").isSome = true ∧
    (m.lookup "QI0").isSome = true ∧ (m.lookup "QG0").isSome = true := by
  simp only [xaj_read_states, requireKey] at h
  cases h1 : m.lookup "WU0" with
  | none =>
    simp only [h1] at h
    exact absurd h (by simp)
  | some v1 =>
  simp only [h1] at h
  cases h2 : m.lookup "WL0" with
  | none =>
    simp only [h2] at h
    exact absurd h (by simp)
  | some v2 =>
  simp only [h2] at h
  cases h3 : m.lookup "WD0" with
  | none =>
    simp only [h3] at h
    exact absurd h (by simp)
  | some v3 =>
  simp only [h3] at h
  cases h4 : m.lookup "S0" with
  | none =>
    simp only [h4] at h
    exact absurd h (by simp)
  | some v4 =>
  simp only [h4] at h
  cases h5 : m.lookup "FR0" with
  | none =>
    simp only [h5] at h
    exact absurd h (by simp)
  | some v5 =>
  simp only [h5] at h
  cases h6 : m.lookup "QS0" with
  | none =>
    simp only [h6] at h
    exact absurd h (by simp)
  | some v6 =>
  simp only [h6] at h
  cases h7 : m.lookup "QI0" with
  | none =>
    simp only [h7] at h
    exact absurd h (by simp)
  | some v7 =>
  simp only [h7] at h
  cases h8 : m.lookup "QG0" with
  | none =>
    simp only [h8] at h
    exact absurd h (by simp)
  | some v8 =>
  simp [h1, h2, h3, h4, h5, h6, h7, h8]

/-- Claim C4 (amended): initial-state defaulting is all-or-nothing. When no
mapping is supplied every component receives `none` and applies its
documented default (`0.6·UM, 0.6·LM, 0.6·DM` in `generation`,
`0.60·SM, 0.02` in both partitioners, `0.01` for the three reservoirs in
the routing); when a mapping is supplied, all eight keys are read, and a
mapping missing any one of the eight keys makes the driver fail with a
KeyError instead of defaulting per key. -/
theorem state_defaulting_all_or_nothing
    (m : List (String × ℝ)) (k : String)
    (hk : k ∈ ["WU0", "WL0", "WD0", "S0", "FR0", "QS0", "QI0", "QG0"])
    (hm : m.lookup k = none)
    (p q um lm dm c b im pe r sm ex ki kg cs ci cg : ℝ) (tih : ℕ) (bk : String)
    (outs : List (ℝ × ℝ × ℝ × ℝ)) :
    xaj_read_states none = Except.ok (none, none, none, none, none, none, none, none) ∧
    (xaj_read_states (some m)).toOption = none ∧
    generation p q um lm dm c b im none none none
      = generation p q um lm dm c b im (some (0.6 * um)) (some (0.6 * lm))
          (some (0.6 * dm)) ∧
    sources pe r sm ex ki kg none none
      = sources pe r sm ex ki kg (some (0.60 * sm)) (some 0.02) ∧
    sources5mm pe r sm ex ki kg none none tih bk
      = sources5mm pe r sm ex ki kg (some (0.60 * sm)) (some 0.02) tih bk ∧
    xaj_route cs ci cg none none none outs
      = xaj_route cs ci cg (some 0.01) (some 0.01) (some 0.01) outs := by
  refine ⟨rfl, ?_, rfl, rfl, rfl, rfl⟩
  cases hres : xaj_read_states (some m) with
  | error e => rfl
  | ok st8 =>
    obtain ⟨o1, o2, o3, o4, o5, o6, o7, o8⟩ := xaj_read_states_ok_isSome m st8 hres
    fin_cases hk <;> simp_all

/-- Claim C4 counterexample: a supplied mapping that contains `WL0` but not
`WU0` makes the driver raise a KeyError at state resolution — it does not
run with the default for the absent key. -/
theorem state_defaulting_missing_key_cex :
    xaj 1 0 1 1 1 1 1 1 (1/4) (1/4) (1/2) (1/2) (1/2) "sources" "ShuiWenYuBao"
      (some [("WL0", 5)]) [(1, 1)] = Except.error "KeyError: WU0" := by
  have hlook : List.lookup "WU0" [("WL0", (5:ℝ))] = none := rfl
  simp [xaj, xaj_read_states, requireKey, hlook]

/-- Claim C4 witness for the amended statement, at a mapping whose absent
key is `QG0` (not the first key read). -/
theorem state_defaulting_all_or_nothing_witness :
    xaj_read_states none = Except.ok (none, none, none, none, none, none, none, none) ∧
    (xaj_read_states (some [("WU0", (5:ℝ))])).toOption = none ∧
    generation 1 1 1 1 1 1 1 0 none none none
      = generation 1 1 1 1 1 1 1 0 (some (0.6 * 1)) (some (0.6 * 1)) (some (0.6 * 1)) ∧
    sources 1 1 1 1 1 1 none none
      = sources 1 1 1 1 1 1 (some (0.60 * 1)) (some 0.02) ∧
    sources5mm 1 1 1 1 1 1 none none 24 "ShuiWenYuBao"
      = sources5mm 1 1 1 1 1 1 (some (0.60 * 1)) (some 0.02) 24 "ShuiWenYuBao" ∧
    xaj_route 1 1 1 none none none []
      = xaj_route 1 1 1 (some 0.01) (some 0.01) (some 0.01) [] :=
  state_defaulting_all_or_nothing [("WU0", (5:ℝ))] "QG0" (by simp) rfl
    1 1 1 1 1 1 1 0 1 1 1 1 1 1 1 1 1 24 "ShuiWenYuBao" []

/-- Claim C7: an unrecognized `source_type` makes the driver fail with the
`NotImplementedError` message during the first timestep of any non-empty
simulation whose initial-state mapping resolves, and no output list is
produced. -/
theorem unknown_source_type_fatal
    (b im um lm dm c sm ex ki kg ci cg cs : ℝ) (source_type source_book : String)
    (states : Option (List (String × ℝ)))
    (st8 : Option ℝ × Option ℝ × Option ℝ × Option ℝ ×
           Option ℝ × Option ℝ × Option ℝ × Option ℝ)
    (pq : ℝ × ℝ) (rest : List (ℝ × ℝ))
    (h1 : source_type ≠ "sources") (h2 : source_type ≠ "sources5mm")
    (hst : xaj_read_states states = Except.ok st8) :
    xaj b im um lm dm c sm ex ki kg ci cg cs source_type source_book states (pq :: rest)
      = Except.error "No such divide-sources method" := by
  obtain ⟨wu0, wl0, wd0, s0, fr0, qs0, qi0, qg0⟩ := st8
  simp only [xaj, hst]
  simp only [xaj_loop, xaj_step, if_neg h1, if_neg h2]

/-- Claim C7 witness at a concrete invocation. -/
theorem unknown_source_type_fatal_witness :
    xaj 1 0 1 1 1 1 1 1 (1/4) (1/4) (1/2) (1/2) (1/2) "foo" "ShuiWenYuBao" none [(1, 1)]
      = Except.error "No such divide-sources method" :=
  unknown_source_type_fatal 1 0 1 1 1 1 1 1 (1/4) (1/4) (1/2) (1/2) (1/2) "foo"
    "ShuiWenYuBao" none (none, none, none, none, none, none, none, none) (1, 1) []
    (by decide) (by decide) rfl
